import Mathlib

set_option maxRecDepth 8000

/-!
Verification development for the MindRefresh quiz game
(`src/app/page.tsx`).  The React component `Game` holds all game state in
`useState` hooks; its event handlers (`handleStart`, `handleAnswer`,
`handlePauseResume`, `handleGameOver`), the timer `useEffect` and the
leaderboard-loading `useEffect` are translated below as pure functions on an
explicit state record.  User interactions, interval ticks and effect re-runs
are modelled as events of a small transition system; reachable states are
those produced by a finite event list applied to the initial component state.
-/

namespace MindRefresh

/-- Game state enum, from the `useState<'start' | 'playing' | 'won' | 'lost'>`
hook at line 25 of `page.tsx`. -/
inductive GState where
  | start
  | playing
  | won
  | lost
deriving DecidableEq, Repr

/-- Question record (lines 8-14).  The source field `type` is rendered here as
`qtype` because `type` is a Lean keyword. -/
structure Question where
  qtype : String
  content : String
  options : Option (List String)
  answer : String
  hint : String
deriving DecidableEq, Repr

/-- Leaderboard entry (lines 16-19).  Scores are non-negative integers. -/
structure LeaderboardEntry where
  name : String
  score : Nat
deriving DecidableEq, Repr

/-- Component state: one field per `useState` hook (lines 23-36), plus the
module-level question bank imported from `questions.json` (mutable state
because `handleStart` sorts the bank's array in place), the `localStorage`
key-value surface, and the availability flag probed by
`isLocalStorageAvailable` (lines 39-48). -/
structure Game where
  userName : String
  category : String
  gameState : GState
  currentQuestions : List Question
  currentQuestionIndex : Option Nat
  score : Nat
  highestScore : Nat
  leaderboard : List LeaderboardEntry
  selectedOption : Option String
  userAnswer : String
  timer : Nat
  isPaused : Bool
  showHint : Bool
  showValidationMessage : Bool
  questionsData : List (String × List Question)
  store : List (String × List LeaderboardEntry)
  storageAvailable : Bool
deriving DecidableEq, Repr

/-- Read a key from the modelled `localStorage`; a missing key is the
`|| '[]'` default of line 55.  JSON parse/stringify of well-typed entry lists
is modelled as the identity, so the store holds entry lists directly. -/
def storeGet (st : List (String × List LeaderboardEntry)) (k : String) :
    List LeaderboardEntry :=
  (st.lookup k).getD []

/-- Write a key, as `localStorage.setItem` (line 150) does: later writes shadow earlier ones under
`storeGet`'s first-match lookup. -/
def storeSet (st : List (String × List LeaderboardEntry)) (k : String)
    (v : List LeaderboardEntry) : List (String × List LeaderboardEntry) :=
  (k, v) :: st

/-- Stable insertion of an entry after every entry of greater-or-equal score.
Together with `sortDesc` this implements the unique stable descending-by-score
reordering, which is what `newLeaderboard.sort((a, b) => b.score - a.score)`
(line 149) produces: ECMAScript requires `Array.prototype.sort` to be stable. -/
def insertEntry (x : LeaderboardEntry) :
    List LeaderboardEntry → List LeaderboardEntry
  | [] => [x]
  | y :: ys => if y.score ≥ x.score then y :: insertEntry x ys else x :: y :: ys

/-- Stable sort, descending by score: the comparator sort of line 149. -/
def sortDesc (l : List LeaderboardEntry) : List LeaderboardEntry :=
  l.foldl (fun acc x => insertEntry x acc) []

/-- Largest stored score, `storedScores.length > 0 ? Math.max(...) : 0`
(line 56). -/
def maxScoreOf (l : List LeaderboardEntry) : Nat :=
  if l.length > 0 then (l.map LeaderboardEntry.score).foldr max 0 else 0

/-- Translation of `handleGameOver` (lines 145-158): when storage is available, append the
current player's entry to the in-memory leaderboard, sort descending by score,
persist under `leaderboard_<category>` and update the `leaderboard` state;
otherwise only warn. -/
def handleGameOver (s : Game) : Game :=
  if s.storageAvailable then
    let newLeaderboard := sortDesc (s.leaderboard ++ [⟨s.userName, s.score⟩])
    { s with leaderboard := newLeaderboard,
             store := storeSet s.store ("leaderboard_" ++ s.category) newLeaderboard }
  else s

/-- Placeholder for the JavaScript `undefined` produced by an out-of-range
`currentQuestions[currentQuestionIndex]` access; never reached from a
reachable state (the invariant keeps the index in range). -/
def defaultQuestion : Question :=
  { qtype := "", content := "", options := none, answer := "", hint := "" }

/-- JavaScript `String.prototype.toLowerCase`: lowercase each character. -/
def jsToLower (s : String) : String :=
  ⟨s.data.map Char.toLower⟩

/-- Case-insensitive answer comparison of line 91:
`currentQuestion.answer.toLowerCase() === selected.toLowerCase()`. -/
def answerCorrect (s : Game) (i : Nat) (selected : String) : Bool :=
  jsToLower (s.currentQuestions.getD i defaultQuestion).answer = jsToLower selected

/-- Body of the `setTimeout` callback inside `handleAnswer` (lines 94-110),
with the values the closure captured at submission time (`correct` and the
question index `i`) passed explicitly.  A correct answer increments the score;
on the last index the state becomes `won`, otherwise the index advances and the
transient reveal state is cleared; an incorrect answer sets `lost` and runs
`handleGameOver`.  Either way the timer is reset to 30 (line 109).  The
last-index test uses integer arithmetic, as `currentQuestions.length - 1`
does in JavaScript. -/
def handleAnswerBody (correct : Bool) (i : Nat) (s : Game) : Game :=
  if correct then
    if (i : Int) = (s.currentQuestions.length : Int) - 1 then
      { s with score := s.score + 1, gameState := GState.won, timer := 30 }
    else
      { s with score := s.score + 1, currentQuestionIndex := some (i + 1),
               selectedOption := none, userAnswer := "", timer := 30 }
  else
    { handleGameOver { s with gameState := GState.lost } with timer := 30 }

/-- Translation of `handleAnswer` (lines 86-111) on the serialized timeline: the guard and the
immediate `setSelectedOption(selected)` (lines 88-93) composed with the
1-second-deferred body, with no event in between.  Interleavings that fall
inside the reveal window are treated separately with `handleAnswerBody`. -/
def handleAnswer (selected : String) (s : Game) : Game :=
  match s.currentQuestionIndex with
  | none => s
  | some i =>
    if s.gameState = GState.playing then
      handleAnswerBody (answerCorrect s i selected) i
        { s with selectedOption := some selected }
    else s

/-- Replace a category's list in the question bank: the in-place
`questionsData[category].sort(...)` of line 120 mutates the imported array,
so the bank entry and the session's `currentQuestions` are the same list. -/
def bankSet (b : List (String × List Question)) (c : String)
    (v : List Question) : List (String × List Question) :=
  b.map (fun p => if p.1 = c then (c, v) else p)

/-- Translation of `handleStart` (lines 113-132).  An empty name or empty category sets the
validation flag and returns (lines 114-117).  Otherwise the category is looked
up: a missing key makes `undefined.sort` throw, the `catch` logs and leaves
every state hook untouched (lines 129-131), modelled as the identity.  On
success the comparator shuffle's result `shuffled` (supplied by the event
layer, which constrains it to a permutation) is installed both as the
session's questions and, via the in-place sort, as the bank's list, and the
session fields are reset (lines 121-128).  `isPaused` is not touched. -/
def handleStart (shuffled : List Question) (s : Game) : Game :=
  if s.userName = "" ∨ s.category = "" then
    { s with showValidationMessage := true }
  else
    match s.questionsData.lookup s.category with
    | none => s
    | some _ =>
      { s with
        questionsData := bankSet s.questionsData s.category shuffled,
        currentQuestions := shuffled,
        showValidationMessage := false,
        gameState := GState.playing,
        currentQuestionIndex := some 0,
        score := 0,
        selectedOption := none,
        userAnswer := "",
        timer := 30 }

/-- Translation of `handlePauseResume` (lines 134-137): a single toggle. -/
def handlePauseResume (s : Game) : Game :=
  { s with isPaused := !s.isPaused }

/-- One firing of the interval installed by the timer effect (lines 74-79):
the interval exists exactly when `!isPaused && gameState === 'playing' &&
timer > 0`, and decrements the timer; otherwise no interval is running and a
tick is a no-op. -/
def tick (s : Game) : Game :=
  if ¬s.isPaused ∧ s.gameState = GState.playing ∧ s.timer > 0 then
    { s with timer := s.timer - 1 }
  else s

/-- Non-interval part of the timer `useEffect` body (lines 72-84), which
re-runs whenever `isPaused`, `gameState` or `timer` changes.  When the
interval condition fails, the `else if (timer === 0)` branch — with no check
that the game is still in progress — sets `lost` and calls `handleGameOver`
(lines 80-83). -/
def timerEffect (s : Game) : Game :=
  if ¬s.isPaused ∧ s.gameState = GState.playing ∧ s.timer > 0 then s
  else if s.timer = 0 then handleGameOver { s with gameState := GState.lost }
  else s

/-- Leaderboard-loading `useEffect` (lines 50-70), run when `category`
changes: for a non-empty known category with storage available, load the
stored scores and the maximum; on unavailable storage fall back to an empty
leaderboard.  Parse failures (the `catch` of line 59) cannot arise in the
typed store model. -/
def categoryEffect (s : Game) : Game :=
  if s.category ≠ "" ∧ (s.questionsData.lookup s.category).isSome then
    if s.storageAvailable then
      let storedScores := storeGet s.store ("leaderboard_" ++ s.category)
      { s with highestScore := maxScoreOf storedScores, leaderboard := storedScores }
    else
      { s with highestScore := 0, leaderboard := [] }
  else s

/-- Events of one session: the user intents reachable through the rendered UI
(the name input, category select and start button exist only on the `start`
screen, the answer/pause/hint controls only on the `playing` screen), the
interval tick, and a re-run of the timer effect. -/
inductive Ev where
  | setName (v : String)
  | setCategory (v : String)
  | startEv (shuffled : List Question)
  | answerEv (v : String)
  | tickEv
  | effectEv
  | pauseEv
  | hintEv
  | hintHideEv
deriving DecidableEq, Repr

/-- Event semantics.  `startEv`'s side condition records that the comparator
shuffle of line 120 returns some permutation of the category's list. -/
def stepF (e : Ev) (s : Game) : Game :=
  match e with
  | .setName v => if s.gameState = GState.start then { s with userName := v } else s
  | .setCategory v =>
      if s.gameState = GState.start then categoryEffect { s with category := v } else s
  | .startEv sh =>
      if s.gameState = GState.start ∧
          sh.Perm ((s.questionsData.lookup s.category).getD []) then
        handleStart sh s
      else s
  | .answerEv v => handleAnswer v s
  | .tickEv => tick s
  | .effectEv => timerEffect s
  | .pauseEv => if s.gameState = GState.playing then handlePauseResume s else s
  | .hintEv => if s.gameState = GState.playing then { s with showHint := true } else s
  | .hintHideEv => { s with showHint := false }

/-- Run a list of events from a state. -/
def runEvents (es : List Ev) (s : Game) : Game :=
  es.foldl (fun t e => stepF e t) s

/-- Initial component state: the `useState` defaults of lines 23-36, together
with the loaded question bank, the initial storage contents and the storage
availability flag. -/
def initialGame (bank : List (String × List Question))
    (st : List (String × List LeaderboardEntry)) (avail : Bool) : Game :=
  { userName := "", category := "", gameState := GState.start,
    currentQuestions := [], currentQuestionIndex := none, score := 0,
    highestScore := 0, leaderboard := [], selectedOption := none,
    userAnswer := "", timer := 30, isPaused := false, showHint := false,
    showValidationMessage := false, questionsData := bank, store := st,
    storageAvailable := avail }

/-- States reachable from a given initial state by some event sequence. -/
def Reachable (s0 s : Game) : Prop :=
  ∃ es : List Ev, runEvents es s0 = s

/-- The question bank maps every category to a non-empty list (spec §3:
a Category names a non-empty ordered sequence of questions). -/
def BankNonempty (b : List (String × List Question)) : Prop :=
  ∀ p ∈ b, p.2 ≠ []

/-- A multiple-choice question whose answer is "a". -/
def q1 : Question :=
  { qtype := "mcq", content := "Q1", options := some ["a", "b"],
    answer := "a", hint := "h1" }

/-- A fill-in question whose answer is "a"; its submit button is not disabled
during the reveal window. -/
def q2 : Question :=
  { qtype := "fill", content := "Q2", options := none,
    answer := "a", hint := "h2" }

/-- A one-question bank for the category "science". -/
def bank1 : List (String × List Question) := [("science", [q1])]

/-- A two-question bank for the category "science". -/
def bank2 : List (String × List Question) := [("science", [q1, q2])]

/-- Session that answers the single question correctly and wins. -/
def gWin : Game :=
  runEvents [.setName "bob", .setCategory "science", .startEv [q1],
    .answerEv "a"] (initialGame bank1 [] true)

/-- Two-question session: first answer correct, second wrong, hence lost. -/
def gLostWrong : Game :=
  runEvents [.setName "bob", .setCategory "science", .startEv [q1, q2],
    .answerEv "a", .answerEv "z"] (initialGame bank2 [] true)

/-- One-question session that lets the 30-second countdown run out: the timer
has just reached 0 and the timer effect has not yet re-run. -/
def gPlayTimeout : Game :=
  runEvents ([.setName "bob", .setCategory "science", .startEv [q1]] ++
    List.replicate 30 Ev.tickEv) (initialGame bank1 [] true)

/-- The timer effect's first re-run after the countdown reached 0 (its `timer`
dependency changed): the game becomes `lost` and `handleGameOver` runs. -/
def gLostTimeout : Game := stepF .effectEv gPlayTimeout

/-- Two-question session at its first question. -/
def gPlay2 : Game :=
  runEvents [.setName "bob", .setCategory "science", .startEv [q1, q2]]
    (initialGame bank2 [] true)

/-- State `gPlay2` during the reveal window: the immediate part of a first
`handleAnswer "a"` call has run (`setSelectedOption`, line 93) and the
deferred body `handleAnswerBody true 0` is still pending. -/
def gReveal : Game := { gPlay2 with selectedOption := some "a" }

/-- State `gPlay2` after the pause button is pressed. -/
def gPaused : Game := stepF .pauseEv gPlay2

/-- Start-screen state with a name typed and the "science" category chosen. -/
def gStartReady : Game :=
  runEvents [.setName "x", .setCategory "science"] (initialGame bank1 [] true)

/-- Start-screen state whose category string is not a key of the bank, fed
directly to `handleStart` to probe the unknown-category path. -/
def gBogus : Game :=
  { initialGame bank1 [] true with userName := "x", category := "bogus" }

/-- Two-question session started with the comparator shuffle having swapped the
two questions (a permutation the random comparator produces with probability
about one half). -/
def gShuffled : Game :=
  runEvents [.setName "x", .setCategory "science", .startEv [q2, q1]]
    (initialGame bank2 [] true)

/-- The Score Store's write operation as the code performs it:
`localStorage.setItem('leaderboard_' + category, JSON.stringify(entries))`
(line 150), with serialization modelled as the identity. -/
def saveLeaderboard (st : List (String × List LeaderboardEntry))
    (category : String) (entries : List LeaderboardEntry) :
    List (String × List LeaderboardEntry) :=
  storeSet st ("leaderboard_" ++ category) entries

/-- The Score Store's read operation as the code performs it:
`JSON.parse(localStorage.getItem('leaderboard_' + category) || '[]')`
(line 55). -/
def loadLeaderboard (st : List (String × List LeaderboardEntry))
    (category : String) : List LeaderboardEntry :=
  storeGet st ("leaderboard_" ++ category)

/-- State invariant maintained by every event. -/
def Inv (s : Game) : Prop :=
  (s.gameState = GState.start → s.isPaused = false ∧ s.timer = 30) ∧
  (s.gameState = GState.playing →
    ∃ i, s.currentQuestionIndex = some i ∧ s.score = i ∧
      i < s.currentQuestions.length) ∧
  (s.gameState = GState.won →
    s.score = s.currentQuestions.length ∧ s.timer = 30) ∧
  (s.gameState = GState.lost →
    ∃ i, s.currentQuestionIndex = some i ∧ s.score = i) ∧
  BankNonempty s.questionsData

/-- A key found by `List.lookup` names an entry of the association list. -/
theorem mem_of_lookup_eq_some {β : Type} {c : String} {v : β} :
    ∀ {b : List (String × β)}, b.lookup c = some v → (c, v) ∈ b := by
  intro b
  induction b with
  | nil => simp [List.lookup]
  | cons p ps ih =>
    rcases p with ⟨k, w⟩
    simp only [List.lookup]
    by_cases hck : c = k
    · subst hck
      simp
      intro h
      exact Or.inl h.symm
    · have hb : (c == k) = false := beq_eq_false_iff_ne.mpr hck
      rw [hb]
      intro h
      exact List.mem_cons_of_mem _ (ih h)

/-- Frame lemma: `handleGameOver` only writes the leaderboard and the store: every field the
invariant tracks is unchanged. -/
theorem handleGameOver_frame (s : Game) :
    (handleGameOver s).score = s.score ∧
    (handleGameOver s).currentQuestionIndex = s.currentQuestionIndex ∧
    (handleGameOver s).gameState = s.gameState ∧
    (handleGameOver s).currentQuestions = s.currentQuestions ∧
    (handleGameOver s).timer = s.timer ∧
    (handleGameOver s).isPaused = s.isPaused ∧
    (handleGameOver s).questionsData = s.questionsData := by
  unfold handleGameOver
  split <;> simp

/-- Lemma: `handleAnswerBody` preserves the invariant, for either evaluation outcome,
from any playing state whose score equals the current index. -/
theorem inv_handleAnswerBody (correct : Bool) (i : Nat) (s : Game)
    (hpl : s.gameState = GState.playing)
    (hidx : s.currentQuestionIndex = some i)
    (hsc : s.score = i) (hlt : i < s.currentQuestions.length)
    (hb : BankNonempty s.questionsData) : Inv (handleAnswerBody correct i s) := by
  unfold handleAnswerBody
  cases correct with
  | true =>
    rw [if_pos rfl]
    by_cases hlast : (i : Int) = (s.currentQuestions.length : Int) - 1
    · rw [if_pos hlast]
      refine ⟨?_, ?_, ?_, ?_, ?_⟩
      · intro hg
        replace hg : GState.won = GState.start := hg
        exact absurd hg (by decide)
      · intro hg
        replace hg : GState.won = GState.playing := hg
        exact absurd hg (by decide)
      · intro _
        refine ⟨?_, rfl⟩
        show s.score + 1 = s.currentQuestions.length
        omega
      · intro hg
        replace hg : GState.won = GState.lost := hg
        exact absurd hg (by decide)
      · exact hb
    · rw [if_neg hlast]
      refine ⟨?_, ?_, ?_, ?_, ?_⟩
      · intro hg
        replace hg : s.gameState = GState.start := hg
        rw [hpl] at hg
        exact absurd hg (by decide)
      · intro _
        refine ⟨i + 1, rfl, ?_, ?_⟩
        · show s.score + 1 = i + 1
          omega
        · show i + 1 < s.currentQuestions.length
          omega
      · intro hg
        replace hg : s.gameState = GState.won := hg
        rw [hpl] at hg
        exact absurd hg (by decide)
      · intro hg
        replace hg : s.gameState = GState.lost := hg
        rw [hpl] at hg
        exact absurd hg (by decide)
      · exact hb
  | false =>
    rw [if_neg (by simp)]
    obtain ⟨hfs, hfi, hfg, hfq, hft, hfp, hfd⟩ :=
      handleGameOver_frame { s with gameState := GState.lost }
    refine ⟨?_, ?_, ?_, ?_, ?_⟩
    · intro hg
      replace hg :
          (handleGameOver { s with gameState := GState.lost }).gameState =
            GState.start := hg
      rw [hfg] at hg
      replace hg : GState.lost = GState.start := hg
      exact absurd hg (by decide)
    · intro hg
      replace hg :
          (handleGameOver { s with gameState := GState.lost }).gameState =
            GState.playing := hg
      rw [hfg] at hg
      replace hg : GState.lost = GState.playing := hg
      exact absurd hg (by decide)
    · intro hg
      replace hg :
          (handleGameOver { s with gameState := GState.lost }).gameState =
            GState.won := hg
      rw [hfg] at hg
      replace hg : GState.lost = GState.won := hg
      exact absurd hg (by decide)
    · intro _
      refine ⟨i, ?_, ?_⟩
      · show (handleGameOver { s with gameState := GState.lost }).currentQuestionIndex =
            some i
        rw [hfi]
        exact hidx
      · show (handleGameOver { s with gameState := GState.lost }).score = i
        rw [hfs]
        exact hsc
    · intro p hp
      replace hp :
          p ∈ (handleGameOver { s with gameState := GState.lost }).questionsData := hp
      rw [hfd] at hp
      exact hb p hp

/-- Every event preserves the invariant. -/
theorem inv_step (e : Ev) (s : Game) (h : Inv s) : Inv (stepF e s) := by
  obtain ⟨h1, h2, h3, h4, h5⟩ := h
  cases e with
  | setName v =>
    simp only [stepF]
    split
    · exact ⟨h1, h2, h3, h4, h5⟩
    · exact ⟨h1, h2, h3, h4, h5⟩
  | setCategory v =>
    simp only [stepF]
    split
    · unfold categoryEffect
      split
      · split
        · exact ⟨h1, h2, h3, h4, h5⟩
        · exact ⟨h1, h2, h3, h4, h5⟩
      · exact ⟨h1, h2, h3, h4, h5⟩
    · exact ⟨h1, h2, h3, h4, h5⟩
  | startEv sh =>
    simp only [stepF]
    split
    · rename_i hcond
      obtain ⟨hs, hperm⟩ := hcond
      unfold handleStart
      split
      · exact ⟨h1, h2, h3, h4, h5⟩
      · split
        · exact ⟨h1, h2, h3, h4, h5⟩
        · rename_i qs hlk
          replace hlk : List.lookup s.category s.questionsData = some qs := hlk
          rw [hlk] at hperm
          simp only [Option.getD_some] at hperm
          have hqs : qs ≠ [] := h5 _ (mem_of_lookup_eq_some hlk)
          have hpos : 0 < sh.length := by
            rw [hperm.length_eq]
            exact List.length_pos.mpr hqs
          have hsh : sh ≠ [] := by
            intro h0
            rw [h0] at hpos
            simp at hpos
          refine ⟨?_, ?_, ?_, ?_, ?_⟩
          · intro hg
            replace hg : GState.playing = GState.start := hg
            exact absurd hg (by decide)
          · intro _
            exact ⟨0, rfl, rfl, hpos⟩
          · intro hg
            replace hg : GState.playing = GState.won := hg
            exact absurd hg (by decide)
          · intro hg
            replace hg : GState.playing = GState.lost := hg
            exact absurd hg (by decide)
          · intro p hp
            replace hp : p ∈ bankSet s.questionsData s.category sh := hp
            simp only [bankSet, List.mem_map] at hp
            obtain ⟨q, hq, hfq⟩ := hp
            by_cases hqc : q.1 = s.category
            · rw [if_pos hqc] at hfq
              rw [← hfq]
              exact hsh
            · rw [if_neg hqc] at hfq
              rw [← hfq]
              exact h5 q hq
    · exact ⟨h1, h2, h3, h4, h5⟩
  | answerEv v =>
    simp only [stepF]
    unfold handleAnswer
    split
    · exact ⟨h1, h2, h3, h4, h5⟩
    · rename_i i hidx
      split
      · rename_i hpl
        obtain ⟨j, hj, hsc, hlt⟩ := h2 hpl
        rw [hidx] at hj
        injection hj with hij
        subst hij
        exact inv_handleAnswerBody _ i _ hpl hidx hsc hlt h5
      · exact ⟨h1, h2, h3, h4, h5⟩
  | tickEv =>
    simp only [stepF]
    unfold tick
    split
    · rename_i hcond
      obtain ⟨hp, hpl, ht⟩ := hcond
      refine ⟨?_, ?_, ?_, ?_, h5⟩
      · intro hg
        replace hg : s.gameState = GState.start := hg
        rw [hpl] at hg
        exact absurd hg (by decide)
      · intro _
        exact h2 hpl
      · intro hg
        replace hg : s.gameState = GState.won := hg
        rw [hpl] at hg
        exact absurd hg (by decide)
      · intro hg
        replace hg : s.gameState = GState.lost := hg
        rw [hpl] at hg
        exact absurd hg (by decide)
    · exact ⟨h1, h2, h3, h4, h5⟩
  | effectEv =>
    simp only [stepF]
    unfold timerEffect
    split
    · exact ⟨h1, h2, h3, h4, h5⟩
    · split
      · rename_i htz
        replace htz : s.timer = 0 := htz
        obtain ⟨hfs, hfi, hfg, hfq, hft, hfp, hfd⟩ :=
          handleGameOver_frame { s with gameState := GState.lost }
        refine ⟨?_, ?_, ?_, ?_, ?_⟩
        · intro hg
          rw [hfg] at hg
          replace hg : GState.lost = GState.start := hg
          exact absurd hg (by decide)
        · intro hg
          rw [hfg] at hg
          replace hg : GState.lost = GState.playing := hg
          exact absurd hg (by decide)
        · intro hg
          rw [hfg] at hg
          replace hg : GState.lost = GState.won := hg
          exact absurd hg (by decide)
        · intro _
          cases hgs : s.gameState with
          | start =>
            have h30 := (h1 hgs).2
            rw [htz] at h30
            exact absurd h30 (by decide)
          | playing =>
            obtain ⟨i, hi, hs2, _⟩ := h2 hgs
            refine ⟨i, ?_, ?_⟩
            · rw [hfi]
              exact hi
            · rw [hfs]
              exact hs2
          | won =>
            have h30 := (h3 hgs).2
            rw [htz] at h30
            exact absurd h30 (by decide)
          | lost =>
            obtain ⟨i, hi, hs2⟩ := h4 hgs
            refine ⟨i, ?_, ?_⟩
            · rw [hfi]
              exact hi
            · rw [hfs]
              exact hs2
        · intro p hp
          rw [hfd] at hp
          exact h5 p hp
      · exact ⟨h1, h2, h3, h4, h5⟩
  | pauseEv =>
    simp only [stepF]
    split
    · rename_i hpl
      unfold handlePauseResume
      refine ⟨?_, ?_, ?_, ?_, h5⟩
      · intro hg
        replace hg : s.gameState = GState.start := hg
        rw [hpl] at hg
        exact absurd hg (by decide)
      · intro _
        exact h2 hpl
      · intro hg
        replace hg : s.gameState = GState.won := hg
        rw [hpl] at hg
        exact absurd hg (by decide)
      · intro hg
        replace hg : s.gameState = GState.lost := hg
        rw [hpl] at hg
        exact absurd hg (by decide)
    · exact ⟨h1, h2, h3, h4, h5⟩
  | hintEv =>
    simp only [stepF]
    split
    · exact ⟨h1, h2, h3, h4, h5⟩
    · exact ⟨h1, h2, h3, h4, h5⟩
  | hintHideEv =>
    simp only [stepF]
    exact ⟨h1, h2, h3, h4, h5⟩

/-- The invariant is preserved by any event sequence. -/
theorem inv_run (es : List Ev) (s : Game) (h : Inv s) : Inv (runEvents es s) := by
  induction es generalizing s with
  | nil => exact h
  | cons e es ih =>
    simp only [runEvents, List.foldl]
    exact ih _ (inv_step e s h)

/-- The initial state satisfies the invariant whenever the loaded bank has only
non-empty categories. -/
theorem inv_initial (bank : List (String × List Question))
    (st : List (String × List LeaderboardEntry)) (avail : Bool)
    (hb : BankNonempty bank) : Inv (initialGame bank st avail) := by
  refine ⟨fun _ => ⟨rfl, rfl⟩, ?_, ?_, ?_, hb⟩ <;> intro hg <;> simp [initialGame] at hg

/-- Every reachable state satisfies the invariant. -/
theorem inv_reachable {bank : List (String × List Question)}
    {st : List (String × List LeaderboardEntry)} {avail : Bool} {s : Game}
    (hb : BankNonempty bank)
    (hr : Reachable (initialGame bank st avail) s) : Inv s := by
  obtain ⟨es, rfl⟩ := hr
  exact inv_run es _ (inv_initial bank st avail hb)

/-- In a playing state with a defined index, `handleAnswer` is the deferred
body applied to the state with the reveal selection recorded. -/
theorem handleAnswer_eq_body (v : String) (s : Game) (i : Nat)
    (hidx : s.currentQuestionIndex = some i)
    (hpl : s.gameState = GState.playing) :
    handleAnswer v s =
      handleAnswerBody (answerCorrect s i v) i
        { s with selectedOption := some v } := by
  unfold handleAnswer
  split
  · rename_i hnone
    rw [hnone] at hidx
    exact absurd hidx (by simp)
  · rename_i j hj
    rw [hj] at hidx
    injection hidx with hij
    subst hij
    rw [if_pos hpl]

/-- C1: for every session that reaches the terminal state `won`, the score
equals the number of questions in the session's question order; in particular
submitting a correct answer on the last question of a playing session yields
state `won` with that full score. -/
theorem C1_won_score_eq_length
    (bank : List (String × List Question))
    (st : List (String × List LeaderboardEntry)) (avail : Bool) (s : Game)
    (hb : BankNonempty bank)
    (hr : Reachable (initialGame bank st avail) s) :
    (s.gameState = GState.won → s.score = s.currentQuestions.length) ∧
    (∀ v i, s.gameState = GState.playing → s.currentQuestionIndex = some i →
      (i : Int) = (s.currentQuestions.length : Int) - 1 →
      answerCorrect s i v = true →
      (handleAnswer v s).gameState = GState.won ∧
      (handleAnswer v s).score = (handleAnswer v s).currentQuestions.length) := by
  obtain ⟨h1, h2, h3, h4, h5⟩ := inv_reachable hb hr
  constructor
  · intro hw
    exact (h3 hw).1
  · intro v i hpl hidx hlast hc
    obtain ⟨j, hj, hsc, hlt⟩ := h2 hpl
    rw [hidx] at hj
    injection hj with hij
    subst hij
    rw [handleAnswer_eq_body v s i hidx hpl, hc]
    unfold handleAnswerBody
    rw [if_pos rfl, if_pos hlast]
    refine ⟨rfl, ?_⟩
    show s.score + 1 = s.currentQuestions.length
    omega

/-- C1 witness: the one-question session `gWin` ends in `won` with score equal
to its question count. -/
theorem C1_won_score_eq_length_witness :
    gWin.gameState = GState.won ∧ gWin.score = gWin.currentQuestions.length :=
  ⟨by decide,
    (C1_won_score_eq_length bank1 [] true gWin (by unfold BankNonempty; decide)
      ⟨[.setName "bob", .setCategory "science", .startEv [q1], .answerEv "a"],
        rfl⟩).1 (by decide)⟩

/-- C2: every session in the terminal state `lost` has its score equal to the
current question index: the failing question awarded no point and the losing
transition changed neither field. -/
theorem C2_lost_score_eq_index
    (bank : List (String × List Question))
    (st : List (String × List LeaderboardEntry)) (avail : Bool) (s : Game)
    (hb : BankNonempty bank)
    (hr : Reachable (initialGame bank st avail) s)
    (hl : s.gameState = GState.lost) :
    ∃ i, s.currentQuestionIndex = some i ∧ s.score = i := by
  obtain ⟨h1, h2, h3, h4, h5⟩ := inv_reachable hb hr
  exact h4 hl

/-- C2 witness: a two-question session with a wrong second answer is `lost`
with score 1 at index 1. -/
theorem C2_lost_score_eq_index_witness :
    gLostWrong.gameState = GState.lost ∧
    (∃ i, gLostWrong.currentQuestionIndex = some i ∧ gLostWrong.score = i) :=
  ⟨by decide,
    C2_lost_score_eq_index bank2 [] true gLostWrong (by unfold BankNonempty; decide)
      ⟨[.setName "bob", .setCategory "science", .startEv [q1, q2],
        .answerEv "a", .answerEv "z"], rfl⟩ (by decide)⟩

/-- C3: counterexample to terminal quiescence.  `gLostTimeout` is a reachable
terminal (`lost`) state with `timer = 0`; the next run of the timer effect —
which React performs because the `gameState` dependency just changed — is not
a no-op: it appends a duplicate leaderboard entry (while indeed leaving
`score`, `currentQuestionIndex` and `timer` unchanged). -/
theorem C3_terminal_effect_not_noop :
    Reachable (initialGame bank1 [] true) gLostTimeout ∧
    gLostTimeout.gameState = GState.lost ∧
    stepF Ev.effectEv gLostTimeout ≠ gLostTimeout ∧
    (stepF Ev.effectEv gLostTimeout).leaderboard = [⟨"bob", 0⟩, ⟨"bob", 0⟩] ∧
    (stepF Ev.effectEv gLostTimeout).score = gLostTimeout.score ∧
    (stepF Ev.effectEv gLostTimeout).currentQuestionIndex =
      gLostTimeout.currentQuestionIndex ∧
    (stepF Ev.effectEv gLostTimeout).timer = gLostTimeout.timer :=
  ⟨⟨[.setName "bob", .setCategory "science", .startEv [q1]] ++
      List.replicate 30 Ev.tickEv ++ [Ev.effectEv], by decide⟩,
    by decide, by decide, by decide, by decide, by decide, by decide⟩

/-- C4: counterexample to persistence on `won`.  The session `gWin` reaches
`won` with storage available, yet nothing is appended to the in-memory
leaderboard and nothing is written to the store: `handleGameOver` is invoked
only on the losing transitions (lines 82 and 107), never on the winning one
(lines 98-99). -/
theorem C4_won_not_persisted :
    Reachable (initialGame bank1 [] true) gWin ∧
    gWin.gameState = GState.won ∧
    gWin.storageAvailable = true ∧
    gWin.leaderboard = [] ∧
    storeGet gWin.store "leaderboard_science" = [] :=
  ⟨⟨[.setName "bob", .setCategory "science", .startEv [q1], .answerEv "a"],
      rfl⟩,
    by decide, by decide, by decide, by decide⟩

/-- C5: counterexample to single persistence of a timeout game-over.  When the
countdown reaches 0 (`gPlayTimeout`: playing, timer 0, store empty), the timer
effect's re-run for the changed `timer` dependency sets `lost` and persists
one entry (`gLostTimeout`); the further re-run for the changed `gameState`
dependency hits the unguarded `timer === 0` branch again and persists a second,
duplicate entry for the same game-over. -/
theorem C5_timeout_persisted_twice :
    gPlayTimeout.gameState = GState.playing ∧
    gPlayTimeout.timer = 0 ∧
    storeGet gPlayTimeout.store "leaderboard_science" = [] ∧
    gLostTimeout = stepF Ev.effectEv gPlayTimeout ∧
    storeGet gLostTimeout.store "leaderboard_science" = [⟨"bob", 0⟩] ∧
    storeGet (stepF Ev.effectEv gLostTimeout).store "leaderboard_science" =
      [⟨"bob", 0⟩, ⟨"bob", 0⟩] :=
  ⟨by decide, by decide, by decide, rfl, by decide, by decide⟩

/-- C6 counterexample: `handleStart` on a state whose category is not a key of
the question bank rejects the start (state unchanged, still `start`, no
session) but signals no user-visible validation error: the thrown `TypeError`
is only caught and logged, and `showValidationMessage` stays `false`. -/
theorem C6_unknown_category_counterexample :
    handleStart [] gBogus = gBogus ∧
    (handleStart [] gBogus).showValidationMessage = false ∧
    (handleStart [] gBogus).gameState = GState.start :=
  ⟨by decide, by decide, by decide⟩

/-- C6 amended: an empty name or empty category sets the validation flag and
changes nothing else; a non-empty unknown category leaves the state entirely
unchanged (silent rejection, no validation flag); in both cases the state
stays `start` and no session is created.  A successful start sets
`currentIndex = 0`, `score = 0`, `timerSeconds = 30`, installs the shuffled
questions, and `paused` is `false` because it was never set in any reachable
start state (the handler itself does not write it). -/
theorem C6_start_validation
    (bank : List (String × List Question))
    (st : List (String × List LeaderboardEntry)) (avail : Bool) (s : Game)
    (hb : BankNonempty bank)
    (hr : Reachable (initialGame bank st avail) s)
    (hstart : s.gameState = GState.start)
    (sh qs : List Question) :
    ((s.userName = "" ∨ s.category = "") →
      handleStart sh s = { s with showValidationMessage := true }) ∧
    (s.userName ≠ "" → s.category ≠ "" →
      List.lookup s.category s.questionsData = none →
      handleStart sh s = s) ∧
    (s.userName ≠ "" → s.category ≠ "" →
      List.lookup s.category s.questionsData = some qs →
      (handleStart sh s).gameState = GState.playing ∧
      (handleStart sh s).currentQuestionIndex = some 0 ∧
      (handleStart sh s).score = 0 ∧
      (handleStart sh s).timer = 30 ∧
      (handleStart sh s).isPaused = false ∧
      (handleStart sh s).currentQuestions = sh) := by
  obtain ⟨h1, h2, h3, h4, h5⟩ := inv_reachable hb hr
  refine ⟨?_, ?_, ?_⟩
  · intro hemp
    unfold handleStart
    rw [if_pos hemp]
  · intro hn hc hnone
    unfold handleStart
    rw [if_neg (by simp [hn, hc])]
    rw [hnone]
  · intro hn hc hsome
    unfold handleStart
    rw [if_neg (by simp [hn, hc])]
    rw [hsome]
    refine ⟨rfl, rfl, rfl, rfl, ?_, rfl⟩
    show s.isPaused = false
    exact (h1 hstart).1

/-- C6 witness: starting from a reachable start state with name "x" and
category "science" succeeds with the specified fresh-session fields. -/
theorem C6_start_validation_witness :
    (handleStart [q1] gStartReady).gameState = GState.playing ∧
    (handleStart [q1] gStartReady).currentQuestionIndex = some 0 ∧
    (handleStart [q1] gStartReady).score = 0 ∧
    (handleStart [q1] gStartReady).timer = 30 ∧
    (handleStart [q1] gStartReady).isPaused = false ∧
    (handleStart [q1] gStartReady).currentQuestions = [q1] :=
  (C6_start_validation bank1 [] true gStartReady (by unfold BankNonempty; decide)
      ⟨[.setName "x", .setCategory "science"], rfl⟩ (by decide) [q1] [q1]).2.2
    (by decide) (by decide) (by decide)

/-- C7: counterexample to reveal-window idempotence.  In the reachable playing
state `gPlay2` a first submission of "a" opens the reveal window (`gReveal`:
`selectedOption` set, deferred body `handleAnswerBody true 0` pending).  A
second `handleAnswer` call during that window passes the guard of line 88
(state still `playing`, index still 0) — it is not rejected — and schedules a
second deferred body with the same captured values.  Running both bodies gives
score 2 at index 1, whereas a single serialized submission gives score 1: the
second submission changed the score, double-counting question 1. -/
theorem C7_reveal_window_second_submission :
    gPlay2.gameState = GState.playing ∧
    gPlay2.currentQuestionIndex = some 0 ∧
    answerCorrect gPlay2 0 "a" = true ∧
    gReveal.gameState = GState.playing ∧
    gReveal.currentQuestionIndex = some 0 ∧
    answerCorrect gReveal 0 "a" = true ∧
    (handleAnswer "a" gPlay2).score = 1 ∧
    (handleAnswer "a" gPlay2).currentQuestionIndex = some 1 ∧
    (handleAnswerBody true 0 (handleAnswerBody true 0
        { gReveal with selectedOption := some "a" })).score = 2 ∧
    (handleAnswerBody true 0 (handleAnswerBody true 0
        { gReveal with selectedOption := some "a" })).currentQuestionIndex =
      some 1 :=
  ⟨by decide, by decide, by decide, by decide, by decide, by decide,
    by decide, by decide, by decide, by decide⟩

/-- C8 counterexample: the pause control is a single toggle
(`setIsPaused(!isPaused)`), so invoking it in the paused playing state
`gPaused` does not leave `paused = true` as the claim requires — it resumes. -/
theorem C8_pause_toggle_counterexample :
    gPaused.gameState = GState.playing ∧
    gPaused.isPaused = true ∧
    (handlePauseResume gPaused).isPaused = false :=
  ⟨by decide, by decide, by decide⟩

/-- C8 amended: invoking the pause/resume toggle while paused resumes
(`paused` becomes `false`) rather than staying paused; the toggle never
changes `score`, `currentIndex` or `timerSeconds`; and while `paused = true`
no interval is running, so a tick leaves the state (in particular
`timerSeconds`) unchanged. -/
theorem C8_pause_amended (s : Game) (h : s.isPaused = true) :
    (handlePauseResume s).isPaused = false ∧
    (handlePauseResume s).score = s.score ∧
    (handlePauseResume s).currentQuestionIndex = s.currentQuestionIndex ∧
    (handlePauseResume s).timer = s.timer ∧
    tick s = s := by
  refine ⟨?_, rfl, rfl, rfl, ?_⟩
  · show (!s.isPaused) = false
    rw [h]
    rfl
  · unfold tick
    rw [if_neg (by simp [h])]

/-- C8 witness: the amended statement holds at the concrete paused state. -/
theorem C8_pause_amended_witness :
    (handlePauseResume gPaused).isPaused = false ∧
    (handlePauseResume gPaused).score = gPaused.score ∧
    (handlePauseResume gPaused).currentQuestionIndex =
      gPaused.currentQuestionIndex ∧
    (handlePauseResume gPaused).timer = gPaused.timer ∧
    tick gPaused = gPaused :=
  C8_pause_amended gPaused (by decide)

/-- C9 counterexample: the store's save/load pair is a verbatim round-trip —
`setItem` stores the entries exactly as given and the load effect parses them
back without sorting — so saving an unsorted list does not come back sorted
descending as the claim states. -/
theorem C9_roundtrip_counterexample :
    loadLeaderboard (saveLeaderboard [] "science" [⟨"a", 1⟩, ⟨"b", 2⟩])
      "science" = [⟨"a", 1⟩, ⟨"b", 2⟩] ∧
    sortDesc [⟨"a", 1⟩, ⟨"b", 2⟩] = [⟨"b", 2⟩, ⟨"a", 1⟩] ∧
    loadLeaderboard (saveLeaderboard [] "science" [⟨"a", 1⟩, ⟨"b", 2⟩])
      "science" ≠ sortDesc [⟨"a", 1⟩, ⟨"b", 2⟩] :=
  ⟨by decide, by decide, by decide⟩

/-- C9 amended: `saveLeaderboard` followed by `loadLeaderboard` for the same
category returns the entries exactly as given; descending order of persisted
leaderboards comes from `handleGameOver` sorting before it saves, not from the
store. -/
theorem C9_roundtrip_amended (st : List (String × List LeaderboardEntry))
    (category : String) (entries : List LeaderboardEntry) :
    loadLeaderboard (saveLeaderboard st category entries) category = entries := by
  unfold loadLeaderboard saveLeaderboard storeGet storeSet
  simp [List.lookup]

/-- C10: counterexample to question-bank immutability.  Starting the
two-question "science" session with the comparator shuffle swapping the two
questions mutates the imported bank in place: after `handleStart` the bank's
"science" list is the swapped order (and is the very list installed as the
session's questions), not the original order. -/
theorem C10_bank_mutated :
    Reachable (initialGame bank2 [] true) gShuffled ∧
    List.lookup "science" (initialGame bank2 [] true).questionsData =
      some [q1, q2] ∧
    List.lookup "science" gShuffled.questionsData = some [q2, q1] ∧
    gShuffled.currentQuestions = [q2, q1] ∧
    ([q2, q1] : List Question) ≠ [q1, q2] :=
  ⟨⟨[.setName "x", .setCategory "science", .startEv [q2, q1]], rfl⟩,
    by decide, by decide, by decide, by decide⟩

end MindRefresh

